import Mathlib

/-!
# Formal model of the Virtual Product Mock Server (`src/main.py`)

A shallow embedding of the request-handling logic of the mock server:

* the catalog data model (categories containing variants, each variant
  carrying a `sku` string and arbitrary further JSON fields, modelled
  opaquely as string key/value pairs);
* `_build_sku_index`, the SKU-index builder (Python dict insertion is
  modelled as pointwise function update, which matches dict membership
  and lookup semantics exactly);
* `_validate_api_key`, the authentication dependency (raising
  `HTTPException(401, "Invalid or missing API key")` is modelled as an
  `Except.error`);
* the `/ping`, `/products` and `/purchase` endpoint handlers.  The
  transaction cache (`_transaction_results`) is global mutable state in
  the source; it is modelled by explicit state passing: each handler
  takes the cache before the call and returns the cache after it.
  `uuid.uuid4()` is a fresh random identifier supplied by the runtime;
  it is modelled as an explicit oracle argument `uuid`;
* `delay_middleware`, whose observable decision — does this request get
  the artificial sleep? — is modelled as a boolean function of the
  configured delay and the request path;
* execution traces of purchase invocations.  The `purchase` handler is
  an `async def` whose body contains no `await`, so under the
  single-threaded asyncio event loop every invocation runs atomically
  from cache read to cache write; concurrent requests are therefore
  serialized as some interleaving of whole invocations, modelled by
  `runPurchases` folding the handler over a list of calls.
-/

/-- A catalog variant: a `sku` string plus arbitrary further JSON
fields, modelled opaquely as string key/value pairs. -/
structure Variant where
  sku : String
  extra : List (String × String)
deriving DecidableEq

/-- A catalog category.  The source reads `cat.get("variants", [])`,
so a category is just its (possibly empty) variant list. -/
structure Category where
  variants : List Variant
deriving DecidableEq

/-- The loaded catalog document.  The source reads
`preset_data.get("categories", [])`. -/
structure Catalog where
  categories : List Category
deriving DecidableEq

/-- Mirror of the Pydantic model `PurchaseRequest`. -/
structure PurchaseRequest where
  sku : String
  customer_identifier : String
  transaction_id : String
  amount_paid_in_cents : Int
deriving DecidableEq

/-- Mirror of the Pydantic model `PurchaseResponse` (the Purchase
Result of the spec). -/
structure PurchaseResponse where
  confirmation_id : String
  status : String
  message : String
deriving DecidableEq

/-- Mirror of FastAPI's `HTTPException` as raised by the source. -/
structure HTTPException where
  status_code : Nat
  detail : String
deriving DecidableEq

/-- The process-wide Transaction Cache `_transaction_results`,
a Python dict mapping transaction ids to purchase results, modelled
extensionally. -/
abbrev TxnCache := String → Option PurchaseResponse

/-- The empty dict `{}` the server starts with. -/
def emptyTxnCache : TxnCache := fun _ => none

/-- Python dict assignment `cache[k] = v` on the transaction cache. -/
def txnSet (cache : TxnCache) (k : String) (v : PurchaseResponse) : TxnCache :=
  fun t => if t = k then some v else cache t

/-- A SKU index, the Python dict built by `_build_sku_index`, modelled
extensionally. -/
abbrev SkuIndex := String → Option Variant

/-- Python dict assignment `index[k] = v` on a SKU index. -/
def skuSet (index : SkuIndex) (k : String) (v : Variant) : SkuIndex :=
  fun s => if s = k then some v else index s

/-- `_build_sku_index(preset_data)`: iterate every category's variant
list in document order and insert `variant["sku"] -> variant` into an
initially empty dict. -/
def _build_sku_index (preset_data : Catalog) : SkuIndex :=
  preset_data.categories.foldl
    (fun index cat =>
      cat.variants.foldl
        (fun index variant => skuSet index variant.sku variant)
        index)
    (fun _ => none)

/-- `_validate_api_key(x_api_key)`: reject with
`HTTPException(401, "Invalid or missing API key")` when the header is
absent or differs from the configured key, else return the header. -/
def _validate_api_key (API_KEY : String) (x_api_key : Option String) :
    Except HTTPException String :=
  match x_api_key with
  | none => Except.error ⟨401, "Invalid or missing API key"⟩
  | some k =>
      if k ≠ API_KEY then Except.error ⟨401, "Invalid or missing API key"⟩
      else Except.ok k

/-- Response body of `GET /ping`: `{"status": "ok"}`. -/
structure PingResponse where
  status : String
deriving DecidableEq

/-- The `/ping` handler: validate the key, then return the fixed
payload. -/
def ping (API_KEY : String) (x_api_key : Option String) :
    Except HTTPException PingResponse :=
  match _validate_api_key API_KEY x_api_key with
  | Except.error e => Except.error e
  | Except.ok _ => Except.ok ⟨"ok"⟩

/-- The `/products` handler: validate the key, then return the loaded
product data verbatim. -/
def list_products (API_KEY : String) (product_data : Catalog)
    (x_api_key : Option String) : Except HTTPException Catalog :=
  match _validate_api_key API_KEY x_api_key with
  | Except.error e => Except.error e
  | Except.ok _ => Except.ok product_data

/-- The body of the `/purchase` handler after `_validate_api_key` has
succeeded (source lines 188–232): idempotency check, `FAIL_PURCHASE`
toggle, SKU validation, success.  Returns the response together with
the transaction cache after the call. -/
def purchaseCore (FAIL_PURCHASE : Bool) (product_data : Catalog)
    (uuid : String) (cache : TxnCache) (body : PurchaseRequest) :
    PurchaseResponse × TxnCache :=
  match cache body.transaction_id with
  | some cached => (cached, cache)
  | none =>
      if FAIL_PURCHASE then
        let result : PurchaseResponse :=
          { confirmation_id := "", status := "failed",
            message := "Purchase rejected" }
        (result, txnSet cache body.transaction_id result)
      else
        match _build_sku_index product_data body.sku with
        | none =>
            let result : PurchaseResponse :=
              { confirmation_id := "", status := "failed",
                message := "Unknown SKU: " ++ body.sku }
            (result, txnSet cache body.transaction_id result)
        | some _ =>
            let confirmation_id := "MOCK-" ++ uuid
            let result : PurchaseResponse :=
              { confirmation_id := confirmation_id, status := "confirmed",
                message := "Booking confirmed" }
            (result, txnSet cache body.transaction_id result)

/-- The full `/purchase` handler: validate the key first (an auth
failure leaves the cache untouched), then run the purchase logic. -/
def purchase (API_KEY : String) (FAIL_PURCHASE : Bool)
    (product_data : Catalog) (uuid : String) (cache : TxnCache)
    (body : PurchaseRequest) (x_api_key : Option String) :
    Except HTTPException PurchaseResponse × TxnCache :=
  match _validate_api_key API_KEY x_api_key with
  | Except.error e => (Except.error e, cache)
  | Except.ok _ =>
      let rc := purchaseCore FAIL_PURCHASE product_data uuid cache body
      (Except.ok rc.1, rc.2)

/-- `delay_middleware`'s decision whether to sleep before processing a
request: `RESPONSE_DELAY_MS > 0 and request.url.path != "/ping"`. -/
def delay_middleware_sleeps (RESPONSE_DELAY_MS : Int) (path : String) : Bool :=
  if 0 < RESPONSE_DELAY_MS ∧ path ≠ "/ping" then true else false

/-- One purchase invocation in an execution trace: the fresh uuid the
runtime would supply, the request header, and the request body. -/
structure Call where
  uuid : String
  x_api_key : Option String
  body : PurchaseRequest

/-- Sequential execution of a list of purchase invocations.  The
handler body contains no `await`, so under the single-threaded asyncio
event loop each invocation is atomic and any concurrent execution is
an interleaving of whole invocations, i.e. some such list. -/
def runPurchases (API_KEY : String) (FAIL_PURCHASE : Bool)
    (product_data : Catalog) (cache : TxnCache) :
    List Call → List (Except HTTPException PurchaseResponse) × TxnCache
  | [] => ([], cache)
  | c :: rest =>
      let rc := purchase API_KEY FAIL_PURCHASE product_data c.uuid cache
        c.body c.x_api_key
      let rs := runPurchases API_KEY FAIL_PURCHASE product_data rc.2 rest
      (rc.1 :: rs.1, rs.2)

/-- All variants of the catalog in document order (each category's
variant list, categories in order). -/
def allVariants (c : Catalog) : List Variant :=
  (c.categories.map Category.variants).flatten

/-- Modelled from the spec: "If two variants across categories share a
SKU, the later one encountered wins (last-write-wins; order = catalog
document order)" — the last variant in document order carrying the
given SKU. -/
def lastVariantWithSku (k : String) (c : Catalog) : Option Variant :=
  (allVariants c).reverse.find? (fun v => v.sku == k)

/-- A Purchase Result of one of the two shapes the handler ever
produces: confirmed with a `MOCK-`-prefixed confirmation id, or failed
with an empty confirmation id.  The two shapes are mutually exclusive
since the statuses differ. -/
def goodResult (r : PurchaseResponse) : Prop :=
  (r.status = "confirmed" ∧ ∃ u, r.confirmation_id = "MOCK-" ++ u) ∨
  (r.status = "failed" ∧ r.confirmation_id = "")

/-- Every Purchase Result stored in a transaction cache has one of the
two shapes of `goodResult`. -/
def cacheWellFormed (cache : TxnCache) : Prop :=
  ∀ t r, cache t = some r → goodResult r

/-- A concrete example catalog (from the spec's end-to-end scenario):
one category with the single variant `{sku: "DRV-1", price: 29999}`. -/
def exampleCatalog : Catalog :=
  ⟨[⟨[⟨"DRV-1", [("price", "29999")]⟩]⟩]⟩

/-- A concrete example purchase request. -/
def exampleRequest : PurchaseRequest :=
  ⟨"DRV-1", "cust1", "t1", 29999⟩

/-- **C1** Idempotent replay: when the request's `transaction_id` is
already a key of the Transaction Cache, the purchase handler returns
the cached Purchase Result unchanged and leaves the cache untouched,
for every value of `FAIL_PURCHASE`, of the catalog, and of the
request's `sku`, `customer_identifier` and `amount_paid_in_cents`. -/
theorem purchase_idempotent_replay
    (API_KEY : String) (FAIL_PURCHASE : Bool) (product_data : Catalog)
    (uuid : String) (cache : TxnCache) (body : PurchaseRequest)
    (x_api_key : Option String) (cached : PurchaseResponse)
    (hkey : x_api_key = some API_KEY)
    (hcached : cache body.transaction_id = some cached) :
    purchase API_KEY FAIL_PURCHASE product_data uuid cache body x_api_key
      = (Except.ok cached, cache) := by
  subst hkey
  simp [purchase, _validate_api_key, purchaseCore, hcached]

/-- Witness for C1: a replay of `t1` with a different sku, a different
amount, and `FAIL_PURCHASE` enabled still returns the stored confirmed
result and leaves the cache unchanged. -/
theorem purchase_idempotent_replay_witness :
    purchase "test-api-key" true exampleCatalog "u2"
        (txnSet emptyTxnCache "t1" ⟨"MOCK-abc", "confirmed", "Booking confirmed"⟩)
        ⟨"NONEXISTENT", "cust2", "t1", 0⟩ (some "test-api-key")
      = (Except.ok ⟨"MOCK-abc", "confirmed", "Booking confirmed"⟩,
         txnSet emptyTxnCache "t1" ⟨"MOCK-abc", "confirmed", "Booking confirmed"⟩) :=
  purchase_idempotent_replay _ _ _ _ _ _ _ _ rfl (by decide)

/-- **C2** Forced failure: with `FAIL_PURCHASE` enabled, every request
whose `transaction_id` is not yet cached yields
`{confirmation_id: "", status: "failed", message: "Purchase rejected"}`
stored under the `transaction_id`, for every catalog and sku (the
toggle is checked before SKU validation). -/
theorem purchase_forced_failure
    (API_KEY : String) (product_data : Catalog) (uuid : String)
    (cache : TxnCache) (body : PurchaseRequest) (x_api_key : Option String)
    (hkey : x_api_key = some API_KEY)
    (hnew : cache body.transaction_id = none) :
    purchase API_KEY true product_data uuid cache body x_api_key
      = (Except.ok ⟨"", "failed", "Purchase rejected"⟩,
         txnSet cache body.transaction_id ⟨"", "failed", "Purchase rejected"⟩) := by
  subst hkey
  simp [purchase, _validate_api_key, purchaseCore, hnew]

/-- Witness for C2: with the toggle on, a fresh transaction with a
perfectly valid sku is rejected and the rejection is cached. -/
theorem purchase_forced_failure_witness :
    purchase "test-api-key" true exampleCatalog "u1" emptyTxnCache
        exampleRequest (some "test-api-key")
      = (Except.ok ⟨"", "failed", "Purchase rejected"⟩,
         txnSet emptyTxnCache "t1" ⟨"", "failed", "Purchase rejected"⟩) :=
  purchase_forced_failure _ _ _ _ _ _ rfl (by decide)

/-- **C3** Unknown SKU: with `FAIL_PURCHASE` disabled, a fresh
transaction whose sku is not a key of the SKU Index yields
`{confirmation_id: "", status: "failed", message: "Unknown SKU: <sku>"}`
stored under the `transaction_id`. -/
theorem purchase_unknown_sku
    (API_KEY : String) (product_data : Catalog) (uuid : String)
    (cache : TxnCache) (body : PurchaseRequest) (x_api_key : Option String)
    (hkey : x_api_key = some API_KEY)
    (hnew : cache body.transaction_id = none)
    (hsku : _build_sku_index product_data body.sku = none) :
    purchase API_KEY false product_data uuid cache body x_api_key
      = (Except.ok ⟨"", "failed", "Unknown SKU: " ++ body.sku⟩,
         txnSet cache body.transaction_id
           ⟨"", "failed", "Unknown SKU: " ++ body.sku⟩) := by
  subst hkey
  simp [purchase, _validate_api_key, purchaseCore, hnew, hsku]

/-- Witness for C3: the spec's example — sku `GHOST` against a catalog
without it, transaction `t2`. -/
theorem purchase_unknown_sku_witness :
    purchase "test-api-key" false exampleCatalog "u1" emptyTxnCache
        ⟨"GHOST", "cust1", "t2", 100⟩ (some "test-api-key")
      = (Except.ok ⟨"", "failed", "Unknown SKU: GHOST"⟩,
         txnSet emptyTxnCache "t2" ⟨"", "failed", "Unknown SKU: GHOST"⟩) :=
  purchase_unknown_sku _ _ _ _ _ _ rfl (by decide) (by decide)

/-- **C4** Success: with `FAIL_PURCHASE` disabled and the sku present
in the SKU Index, a fresh transaction yields
`{confirmation_id: "MOCK-" ++ uuid, status: "confirmed",
message: "Booking confirmed"}`, stored under the `transaction_id`
before returning (`uuid` is the fresh identifier drawn from the
runtime's `uuid.uuid4()`). -/
theorem purchase_success
    (API_KEY : String) (product_data : Catalog) (uuid : String)
    (cache : TxnCache) (body : PurchaseRequest) (x_api_key : Option String)
    (v : Variant)
    (hkey : x_api_key = some API_KEY)
    (hnew : cache body.transaction_id = none)
    (hsku : _build_sku_index product_data body.sku = some v) :
    purchase API_KEY false product_data uuid cache body x_api_key
      = (Except.ok ⟨"MOCK-" ++ uuid, "confirmed", "Booking confirmed"⟩,
         txnSet cache body.transaction_id
           ⟨"MOCK-" ++ uuid, "confirmed", "Booking confirmed"⟩) := by
  subst hkey
  simp [purchase, _validate_api_key, purchaseCore, hnew, hsku]

/-- Witness for C4: the spec's end-to-end scenario — buying `DRV-1`
from the example catalog under transaction `t1` confirms with
confirmation id `MOCK-` followed by the drawn uuid. -/
theorem purchase_success_witness :
    purchase "test-api-key" false exampleCatalog "abc" emptyTxnCache
        exampleRequest (some "test-api-key")
      = (Except.ok ⟨"MOCK-abc", "confirmed", "Booking confirmed"⟩,
         txnSet emptyTxnCache "t1" ⟨"MOCK-abc", "confirmed", "Booking confirmed"⟩) :=
  purchase_success _ _ _ _ _ _ ⟨"DRV-1", [("price", "29999")]⟩ rfl
    (by decide) (by decide)

/-- **C5** Authentication gate: on every route, a request whose
`X-API-Key` header is absent or differs from the configured key is
rejected with `401` and detail `"Invalid or missing API key"` before
any handler logic runs (in particular the transaction cache is
untouched); a request whose header equals the key proceeds to the
route handler. -/
theorem auth_gate
    (API_KEY : String) (product_data : Catalog) (FAIL_PURCHASE : Bool)
    (uuid : String) (cache : TxnCache) (body : PurchaseRequest)
    (x_api_key : Option String) :
    (x_api_key ≠ some API_KEY →
      ping API_KEY x_api_key
        = Except.error ⟨401, "Invalid or missing API key"⟩ ∧
      list_products API_KEY product_data x_api_key
        = Except.error ⟨401, "Invalid or missing API key"⟩ ∧
      purchase API_KEY FAIL_PURCHASE product_data uuid cache body x_api_key
        = (Except.error ⟨401, "Invalid or missing API key"⟩, cache)) ∧
    (x_api_key = some API_KEY →
      ping API_KEY x_api_key = Except.ok ⟨"ok"⟩ ∧
      list_products API_KEY product_data x_api_key = Except.ok product_data ∧
      purchase API_KEY FAIL_PURCHASE product_data uuid cache body x_api_key
        = (Except.ok (purchaseCore FAIL_PURCHASE product_data uuid cache body).1,
           (purchaseCore FAIL_PURCHASE product_data uuid cache body).2)) := by
  constructor
  · intro h
    cases x_api_key with
    | none => simp [ping, list_products, purchase, _validate_api_key]
    | some k =>
        have hk : k ≠ API_KEY := by
          intro e
          exact h (by rw [e])
        simp [ping, list_products, purchase, _validate_api_key, hk]
  · intro h
    subst h
    simp [ping, list_products, purchase, _validate_api_key]

/-- Witness for C5: a missing header is rejected on `/ping`, a wrong
header is rejected on `/products` and on `/purchase` (cache
untouched), and the right header passes on `/ping`. -/
theorem auth_gate_witness :
    ping "test-api-key" none
      = Except.error ⟨401, "Invalid or missing API key"⟩ ∧
    list_products "test-api-key" exampleCatalog (some "wrong-key")
      = Except.error ⟨401, "Invalid or missing API key"⟩ ∧
    purchase "test-api-key" false exampleCatalog "u1" emptyTxnCache
        exampleRequest (some "wrong-key")
      = (Except.error ⟨401, "Invalid or missing API key"⟩, emptyTxnCache) ∧
    ping "test-api-key" (some "test-api-key") = Except.ok ⟨"ok"⟩ :=
  ⟨((auth_gate "test-api-key" exampleCatalog false "u1" emptyTxnCache
      exampleRequest none).1 (by decide)).1,
   ((auth_gate "test-api-key" exampleCatalog false "u1" emptyTxnCache
      exampleRequest (some "wrong-key")).1 (by decide)).2.1,
   ((auth_gate "test-api-key" exampleCatalog false "u1" emptyTxnCache
      exampleRequest (some "wrong-key")).1 (by decide)).2.2,
   ((auth_gate "test-api-key" exampleCatalog false "u1" emptyTxnCache
      exampleRequest (some "test-api-key")).2 rfl).1⟩

/-- The transaction cache after a `purchaseCore` call is unchanged at
every key other than the request's `transaction_id`. -/
theorem purchaseCore_other_key (FAIL_PURCHASE : Bool)
    (product_data : Catalog) (uuid : String) (cache : TxnCache)
    (body : PurchaseRequest) (t : String)
    (ht : t ≠ body.transaction_id) :
    (purchaseCore FAIL_PURCHASE product_data uuid cache body).2 t = cache t := by
  rcases hc : cache body.transaction_id with _ | cached
  · by_cases hF : FAIL_PURCHASE
    · simp [purchaseCore, hc, hF, txnSet, ht]
    · rcases hs : _build_sku_index product_data body.sku with _ | v
      · simp [purchaseCore, hc, hF, hs, txnSet, ht]
      · simp [purchaseCore, hc, hF, hs, txnSet, ht]
  · simp [purchaseCore, hc]

/-- After a `purchaseCore` call the cache holds the returned result
under the request's `transaction_id` (in every branch, the replay
branch included). -/
theorem purchaseCore_writes_result (FAIL_PURCHASE : Bool)
    (product_data : Catalog) (uuid : String) (cache : TxnCache)
    (body : PurchaseRequest) :
    (purchaseCore FAIL_PURCHASE product_data uuid cache body).2
        body.transaction_id
      = some (purchaseCore FAIL_PURCHASE product_data uuid cache body).1 := by
  rcases hc : cache body.transaction_id with _ | cached
  · by_cases hF : FAIL_PURCHASE
    · simp [purchaseCore, hc, hF, txnSet]
    · rcases hs : _build_sku_index product_data body.sku with _ | v
      · simp [purchaseCore, hc, hF, hs, txnSet]
      · simp [purchaseCore, hc, hF, hs, txnSet]
  · simp [purchaseCore, hc]

/-- A call whose `transaction_id` is already cached returns the cached
result and leaves the cache as it was. -/
theorem purchaseCore_replay (FAIL_PURCHASE : Bool) (product_data : Catalog)
    (uuid : String) (cache : TxnCache) (body : PurchaseRequest)
    (r : PurchaseResponse)
    (hc : cache body.transaction_id = some r) :
    purchaseCore FAIL_PURCHASE product_data uuid cache body = (r, cache) := by
  simp [purchaseCore, hc]

/-- Existing cache entries are never overwritten by `purchaseCore`. -/
theorem purchaseCore_preserves (FAIL_PURCHASE : Bool)
    (product_data : Catalog) (uuid : String) (cache : TxnCache)
    (body : PurchaseRequest) (t : String) (r : PurchaseResponse)
    (h : cache t = some r) :
    (purchaseCore FAIL_PURCHASE product_data uuid cache body).2 t = some r := by
  by_cases ht : t = body.transaction_id
  · subst ht
    rw [purchaseCore_replay FAIL_PURCHASE product_data uuid cache body r h]
    exact h
  · rw [purchaseCore_other_key FAIL_PURCHASE product_data uuid cache body t ht]
    exact h

/-- With a valid key the full handler is `purchaseCore` with the
response wrapped in `Except.ok`. -/
theorem purchase_ok (API_KEY FAIL_PURCHASE product_data uuid cache body :
    _) :
    purchase API_KEY FAIL_PURCHASE product_data uuid cache body (some API_KEY)
      = (Except.ok (purchaseCore FAIL_PURCHASE product_data uuid cache body).1,
         (purchaseCore FAIL_PURCHASE product_data uuid cache body).2) := by
  simp [purchase, _validate_api_key]

/-- Existing cache entries are never overwritten by the full handler,
whatever the supplied header. -/
theorem purchase_preserves (API_KEY : String) (FAIL_PURCHASE : Bool)
    (product_data : Catalog) (uuid : String) (cache : TxnCache)
    (body : PurchaseRequest) (x_api_key : Option String) (t : String)
    (r : PurchaseResponse) (h : cache t = some r) :
    (purchase API_KEY FAIL_PURCHASE product_data uuid cache body x_api_key).2 t
      = some r := by
  rcases hv : _validate_api_key API_KEY x_api_key with e | s
  · simp only [purchase, hv]
    exact h
  · simp only [purchase, hv]
    exact purchaseCore_preserves FAIL_PURCHASE product_data uuid cache body t r h

/-- **C7** Cache frame condition: with a valid key, a purchase call
(a) changes no cache entry other than the request's `transaction_id`,
(b) ends with its own returned result stored under the request's
`transaction_id`, and (c) leaves the cache entirely unchanged when the
`transaction_id` was already cached (the replay branch only reads). -/
theorem purchase_cache_frame
    (API_KEY : String) (FAIL_PURCHASE : Bool) (product_data : Catalog)
    (uuid : String) (cache : TxnCache) (body : PurchaseRequest)
    (x_api_key : Option String)
    (hkey : x_api_key = some API_KEY) :
    (∀ t, t ≠ body.transaction_id →
      (purchase API_KEY FAIL_PURCHASE product_data uuid cache body
          x_api_key).2 t = cache t) ∧
    (∃ r, (purchase API_KEY FAIL_PURCHASE product_data uuid cache body
          x_api_key).1 = Except.ok r ∧
      (purchase API_KEY FAIL_PURCHASE product_data uuid cache body
          x_api_key).2 body.transaction_id = some r) ∧
    (∀ r0, cache body.transaction_id = some r0 →
      (purchase API_KEY FAIL_PURCHASE product_data uuid cache body
          x_api_key).2 = cache) := by
  subst hkey
  rw [purchase_ok]
  refine ⟨?_, ⟨_, rfl, ?_⟩, ?_⟩
  · intro t ht
    exact purchaseCore_other_key FAIL_PURCHASE product_data uuid cache body t ht
  · exact purchaseCore_writes_result FAIL_PURCHASE product_data uuid cache body
  · intro r0 h0
    rw [purchaseCore_replay FAIL_PURCHASE product_data uuid cache body r0 h0]

/-- Witness for C7: a concrete success call leaves the unrelated key
`t9` untouched and stores its own result under `t1`; a concrete replay
call returns with the cache exactly as it was. -/
theorem purchase_cache_frame_witness :
    (purchase "test-api-key" false exampleCatalog "abc" emptyTxnCache
        exampleRequest (some "test-api-key")).2 "t9" = emptyTxnCache "t9" ∧
    (∃ r, (purchase "test-api-key" false exampleCatalog "abc" emptyTxnCache
        exampleRequest (some "test-api-key")).1 = Except.ok r ∧
      (purchase "test-api-key" false exampleCatalog "abc" emptyTxnCache
        exampleRequest (some "test-api-key")).2 "t1" = some r) ∧
    (purchase "test-api-key" true exampleCatalog "u2"
        (txnSet emptyTxnCache "t1" ⟨"", "failed", "Purchase rejected"⟩)
        exampleRequest (some "test-api-key")).2
      = txnSet emptyTxnCache "t1" ⟨"", "failed", "Purchase rejected"⟩ :=
  ⟨(purchase_cache_frame "test-api-key" false exampleCatalog "abc"
      emptyTxnCache exampleRequest (some "test-api-key") rfl).1 "t9" (by decide),
   (purchase_cache_frame "test-api-key" false exampleCatalog "abc"
      emptyTxnCache exampleRequest (some "test-api-key") rfl).2.1,
   (purchase_cache_frame "test-api-key" true exampleCatalog "u2"
      (txnSet emptyTxnCache "t1" ⟨"", "failed", "Purchase rejected"⟩)
      exampleRequest (some "test-api-key") rfl).2.2
     ⟨"", "failed", "Purchase rejected"⟩ (by decide)⟩

/-- **C8** Ping delay exemption: the middleware sleeps before a
request exactly when the configured delay is positive and the path is
not `/ping` — so `/ping` is never delayed, and with a delay of zero no
request is delayed. -/
theorem delay_exempts_ping (RESPONSE_DELAY_MS : Int) (path : String) :
    delay_middleware_sleeps RESPONSE_DELAY_MS path = true
      ↔ 0 < RESPONSE_DELAY_MS ∧ path ≠ "/ping" := by
  simp [delay_middleware_sleeps]

/-- Looking up the inner variant fold of `_build_sku_index` at a key
equals folding "the latest matching variant" over the same list. -/
theorem build_fold_variants (k : String) (vs : List Variant)
    (index : SkuIndex) :
    (vs.foldl (fun index variant => skuSet index variant.sku variant)
      index) k
      = vs.foldl (fun acc v => if k = v.sku then some v else acc)
          (index k) := by
  induction vs generalizing index with
  | nil => rfl
  | cons v vs ih =>
      simp only [List.foldl_cons]
      rw [ih]
      simp [skuSet]

/-- Looking up the two nested folds of `_build_sku_index` at a key
equals folding "the latest matching variant" over the flattened
variant lists in document order. -/
theorem build_fold_categories (k : String) (cats : List Category)
    (index : SkuIndex) :
    (cats.foldl
        (fun index cat =>
          cat.variants.foldl
            (fun index variant => skuSet index variant.sku variant)
            index)
        index) k
      = ((cats.map Category.variants).flatten).foldl
          (fun acc v => if k = v.sku then some v else acc) (index k) := by
  induction cats generalizing index with
  | nil => rfl
  | cons c cs ih =>
      simp only [List.foldl_cons, List.map_cons, List.flatten_cons,
        List.foldl_append]
      rw [ih, build_fold_variants]

/-- Folding "the latest matching variant" over a list finds the last
element matching the key, i.e. the first match in the reversed list. -/
theorem foldl_last_find (k : String) (vs : List Variant)
    (init : Option Variant) :
    vs.foldl (fun acc v => if k = v.sku then some v else acc) init
      = match vs.reverse.find? (fun v => v.sku == k) with
        | some v => some v
        | none => init := by
  induction vs using List.reverseRecOn with
  | nil => rfl
  | append_singleton vs v ih =>
      by_cases h : k = v.sku
      · simp [List.foldl_append, List.reverse_append, h]
      · have h2 : (v.sku == k) = false := by
          simp
          intro e
          exact h e.symm
        simp [List.foldl_append, List.reverse_append, h, h2, ih]

/-- **C6** SKU Index construction: `_build_sku_index` is a pure
function of the catalog, and looking any SKU up in the index it builds
yields exactly the last variant carrying that SKU in catalog document
order (categories in order, each category's variants in order) — so
when two variants share a SKU, the one encountered later wins. -/
theorem build_sku_index_last_write_wins (c : Catalog) (k : String) :
    _build_sku_index c k = lastVariantWithSku k c := by
  unfold _build_sku_index lastVariantWithSku allVariants
  rw [build_fold_categories, foldl_last_find]
  cases hf : ((c.categories.map Category.variants).flatten).reverse.find?
      (fun v => v.sku == k) with
  | none => simp [hf]
  | some v => simp [hf]

/-- Existing cache entries survive any trace of purchase invocations
unchanged. -/
theorem runPurchases_preserves (API_KEY : String) (FAIL_PURCHASE : Bool)
    (product_data : Catalog) (calls : List Call) (cache : TxnCache)
    (t : String) (r : PurchaseResponse) (h : cache t = some r) :
    (runPurchases API_KEY FAIL_PURCHASE product_data cache calls).2 t
      = some r := by
  induction calls generalizing cache with
  | nil => exact h
  | cons c cs ih =>
      simp only [runPurchases]
      exact ih _ (purchase_preserves API_KEY FAIL_PURCHASE product_data
        c.uuid cache c.body c.x_api_key t r h)

/-- **C9** At most one authoritative computation per `transaction_id`:
in any serialization of concurrent purchase invocations (the handler
body has no `await`, so under the asyncio event loop each invocation
runs atomically and any concurrent execution is such a serialization),
a later call with the same `transaction_id` — however many other calls
run in between — returns exactly what the first call returned; in
particular two same-`transaction_id` calls never return distinct
confirmation ids. -/
theorem purchase_at_most_one_per_txn
    (API_KEY : String) (FAIL_PURCHASE : Bool) (product_data : Catalog)
    (cache : TxnCache) (b1 b2 : PurchaseRequest) (u1 u2 : String)
    (mid : List Call)
    (hsame : b2.transaction_id = b1.transaction_id) :
    (purchase API_KEY FAIL_PURCHASE product_data u2
        (runPurchases API_KEY FAIL_PURCHASE product_data
          (purchase API_KEY FAIL_PURCHASE product_data u1 cache b1
            (some API_KEY)).2 mid).2
        b2 (some API_KEY)).1
      = (purchase API_KEY FAIL_PURCHASE product_data u1 cache b1
          (some API_KEY)).1 := by
  rw [purchase_ok, purchase_ok]
  have h2 : (runPurchases API_KEY FAIL_PURCHASE product_data
      (purchaseCore FAIL_PURCHASE product_data u1 cache b1).2 mid).2
      b2.transaction_id
      = some (purchaseCore FAIL_PURCHASE product_data u1 cache b1).1 := by
    rw [hsame]
    exact runPurchases_preserves API_KEY FAIL_PURCHASE product_data mid _
      b1.transaction_id _
      (purchaseCore_writes_result FAIL_PURCHASE product_data u1 cache b1)
  rw [purchaseCore_replay FAIL_PURCHASE product_data u2 _ b2 _ h2]

/-- Witness for C9: a confirmed purchase of `DRV-1` under `t1`, then an
interleaved unrelated call under `t2`, then a second call under `t1`
with a different sku and a different fresh uuid available — the second
`t1` call returns exactly the first call's response. -/
theorem purchase_at_most_one_per_txn_witness :
    (purchase "test-api-key" false exampleCatalog "xyz"
        (runPurchases "test-api-key" false exampleCatalog
          (purchase "test-api-key" false exampleCatalog "abc" emptyTxnCache
            exampleRequest (some "test-api-key")).2
          [⟨"u9", some "test-api-key", ⟨"GHOST", "cust3", "t2", 5⟩⟩]).2
        ⟨"NONEXISTENT", "cust2", "t1", 0⟩ (some "test-api-key")).1
      = (purchase "test-api-key" false exampleCatalog "abc" emptyTxnCache
          exampleRequest (some "test-api-key")).1 :=
  purchase_at_most_one_per_txn "test-api-key" false exampleCatalog
    emptyTxnCache exampleRequest ⟨"NONEXISTENT", "cust2", "t1", 0⟩
    "abc" "xyz" [⟨"u9", some "test-api-key", ⟨"GHOST", "cust3", "t2", 5⟩⟩]
    rfl

/-- `purchaseCore` stores only results of the two shapes of
`goodResult`. -/
theorem purchaseCore_preserves_shape (FAIL_PURCHASE : Bool)
    (product_data : Catalog) (uuid : String) (cache : TxnCache)
    (body : PurchaseRequest) (hinv : cacheWellFormed cache) :
    cacheWellFormed
      (purchaseCore FAIL_PURCHASE product_data uuid cache body).2 := by
  intro t r hr
  rcases hc : cache body.transaction_id with _ | cached
  · by_cases ht : t = body.transaction_id
    · subst ht
      rw [purchaseCore_writes_result FAIL_PURCHASE product_data uuid cache
        body] at hr
      obtain rfl : (purchaseCore FAIL_PURCHASE product_data uuid cache
          body).1 = r := Option.some.inj hr
      by_cases hF : FAIL_PURCHASE
      · have h1 : (purchaseCore FAIL_PURCHASE product_data uuid cache body).1
            = ⟨"", "failed", "Purchase rejected"⟩ := by
          simp [purchaseCore, hc, hF]
        rw [h1]
        exact Or.inr ⟨rfl, rfl⟩
      · rcases hs : _build_sku_index product_data body.sku with _ | v
        · have h1 : (purchaseCore FAIL_PURCHASE product_data uuid cache
              body).1 = ⟨"", "failed", "Unknown SKU: " ++ body.sku⟩ := by
            simp [purchaseCore, hc, hF, hs]
          rw [h1]
          exact Or.inr ⟨rfl, rfl⟩
        · have h1 : (purchaseCore FAIL_PURCHASE product_data uuid cache
              body).1 = ⟨"MOCK-" ++ uuid, "confirmed", "Booking confirmed"⟩ := by
            simp [purchaseCore, hc, hF, hs]
          rw [h1]
          exact Or.inl ⟨rfl, uuid, rfl⟩
    · rw [purchaseCore_other_key FAIL_PURCHASE product_data uuid cache body
        t ht] at hr
      exact hinv t r hr
  · rw [purchaseCore_replay FAIL_PURCHASE product_data uuid cache body
      cached hc] at hr
    exact hinv t r hr

/-- **C10** Cache-content invariant: if every result stored in the
cache is either confirmed with a `MOCK-`-prefixed confirmation id or
failed with an empty confirmation id, the same holds after any
purchase call (with any header) — so every result ever stored in the
cache, starting from the empty one, has one of these two shapes. -/
theorem purchase_preserves_cache_shape
    (API_KEY : String) (FAIL_PURCHASE : Bool) (product_data : Catalog)
    (uuid : String) (cache : TxnCache) (body : PurchaseRequest)
    (x_api_key : Option String)
    (hinv : cacheWellFormed cache) :
    cacheWellFormed
      (purchase API_KEY FAIL_PURCHASE product_data uuid cache body
        x_api_key).2 := by
  rcases hv : _validate_api_key API_KEY x_api_key with e | s
  · simpa only [purchase, hv] using hinv
  · simp only [purchase, hv]
    exact purchaseCore_preserves_shape FAIL_PURCHASE product_data uuid cache
      body hinv

/-- Witness for C10: starting from the empty cache (trivially
well-formed), the cache after a concrete successful purchase is
well-formed. -/
theorem purchase_preserves_cache_shape_witness :
    cacheWellFormed
      (purchase "test-api-key" false exampleCatalog "abc" emptyTxnCache
        exampleRequest (some "test-api-key")).2 :=
  purchase_preserves_cache_shape "test-api-key" false exampleCatalog "abc"
    emptyTxnCache exampleRequest (some "test-api-key")
    (fun _ _ hr => nomatch hr)
